import Mathlib

/-!
Verification development for the Google Photos archive walker
(source file: the archive script with the navigation/retry state machine).

The script drives a browser through a photo library: it reads a checkpoint
(the .lastdone file), processes one item at a time (archive / skip / timeout),
persists progress for non-archived items, and advances to the previous item
with escalating fallback strategies.  The definitions below are shallow
embeddings of the script's pure decision logic; browser effects (page loads,
keyboard presses, file writes) are represented by explicit inputs and outputs.
-/

set_option autoImplicit false

namespace GPhotos

/-! ## URL normalization: the source's clean function

Source: const clean = (link) => link.replace(/\/u\/\d+\//, '/')

JavaScript String.replace with a non-global regex replaces only the first
(leftmost) match.  The pattern is the literal "/u/" followed by one or more
digits followed by "/".  Because the digit class is greedy and a digit can
never satisfy the final "/" on backtracking, a match at a position exists
iff the maximal digit run after "/u/" is nonempty and is followed by "/".
-/

/-- Consume the remaining digits of a digit run, then require a slash;
returns the suffix after the slash, or none when the run is not closed
by a slash. Models the greedy tail of the regex after its first digit. -/
def afterDigits : List Char → Option (List Char)
  | [] => none
  | c :: cs => if c.isDigit then afterDigits cs else if c = '/' then some cs else none

/-- Match one or more digits followed by a slash at the head of the list;
returns the suffix after the closing slash. -/
def digitsThenSlash : List Char → Option (List Char)
  | [] => none
  | c :: cs => if c.isDigit then afterDigits cs else none

/-- Try to match the regex /\/u\/\d+\// at the head of the list; returns
the suffix after the match. -/
def matchU : List Char → Option (List Char)
  | a :: b :: c :: rest =>
    if a = '/' ∧ b = 'u' ∧ c = '/' then digitsThenSlash rest else none
  | _ => none

/-- Replace the first (leftmost) match of /\/u\/\d+\// by a single slash,
exactly as the JavaScript non-global String.replace does; a string without
a match is returned unchanged. -/
def replaceFirstU : List Char → List Char
  | [] => []
  | c :: cs =>
    match matchU (c :: cs) with
    | some rest => '/' :: rest
    | none => c :: replaceFirstU cs

/-- Does the pattern /\/u\/\d+\// match anywhere in the list? -/
def hasUMatch : List Char → Bool
  | [] => false
  | c :: cs => (matchU (c :: cs)).isSome || hasUMatch cs

/-- Source: clean — remove the first /u/(digits)/ account-index segment
from a URL, replacing it with a single slash. -/
def clean (link : String) : String := String.mk (replaceFirstU link.data)

-- Sanity checks against the JavaScript semantics.
example : clean "https://photos.google.com/u/0/photo/AF1QX" =
    "https://photos.google.com/photo/AF1QX" := by decide
example : clean "https://photos.google.com/photo/AF1QX" =
    "https://photos.google.com/photo/AF1QX" := by decide
example : clean "/u/1/u/2/x" = "/u/2/x" := by decide
example : clean "/u/2/x" = "/x" := by decide

theorem afterDigits_length {cs rest : List Char} (h : afterDigits cs = some rest) :
    rest.length < cs.length := by
  induction cs with
  | nil => simp [afterDigits] at h
  | cons c cs ih =>
    simp only [afterDigits] at h
    split at h
    · have := ih h
      simp only [List.length_cons]
      omega
    · split at h
      · injection h with h
        subst h
        simp
      · exact absurd h (by simp)

theorem digitsThenSlash_length {cs rest : List Char} (h : digitsThenSlash cs = some rest) :
    rest.length + 2 ≤ cs.length := by
  cases cs with
  | nil => simp [digitsThenSlash] at h
  | cons c cs =>
    simp only [digitsThenSlash] at h
    by_cases hd : c.isDigit
    · simp only [hd, if_true] at h
      have := afterDigits_length h
      simp only [List.length_cons]
      omega
    · simp [hd] at h

theorem matchU_length {l rest : List Char} (h : matchU l = some rest) :
    rest.length + 5 ≤ l.length := by
  match l with
  | [] => simp [matchU] at h
  | [_] => simp [matchU] at h
  | [_, _] => simp [matchU] at h
  | a :: b :: c :: t =>
    simp only [matchU] at h
    split at h
    · have := digitsThenSlash_length h
      simp only [List.length_cons]
      omega
    · exact absurd h (by simp)

theorem replaceFirstU_of_no_match {l : List Char} (h : hasUMatch l = false) :
    replaceFirstU l = l := by
  induction l with
  | nil => rfl
  | cons c cs ih =>
    simp only [hasUMatch, Bool.or_eq_false_iff] at h
    cases hm : matchU (c :: cs) with
    | some rest => rw [hm] at h; simp at h
    | none =>
      simp only [replaceFirstU, hm]
      rw [ih h.2]

theorem replaceFirstU_length_lt {l : List Char} (h : hasUMatch l = true) :
    (replaceFirstU l).length < l.length := by
  induction l with
  | nil => simp [hasUMatch] at h
  | cons c cs ih =>
    cases hm : matchU (c :: cs) with
    | some rest =>
      have hlen := matchU_length hm
      simp only [List.length_cons] at hlen
      simp only [replaceFirstU, hm, List.length_cons]
      omega
    | none =>
      have hcs : hasUMatch cs = true := by
        simp only [hasUMatch, hm, Option.isSome_none, Bool.false_or] at h
        exact h
      simp only [replaceFirstU, hm, List.length_cons]
      have := ih hcs
      omega

/-! ## Walk outcome and checkpoint store

Source: archivePhoto returns one of the strings archived / skipped / timeout;
saveProgress writes page.url() to the .lastdone file only when it starts with
the Google Photos origin; both call sites guard the write with
if (result !== 'archived').
-/

/-- The per-item walk outcome returned by archivePhoto. -/
inductive Outcome
  | archived
  | skipped
  | timeout
  deriving DecidableEq, Repr, Inhabited

/-- Source: the literal URL origin checked by saveProgress. -/
def googlePhotosOrigin : String := "https://photos.google.com"

/-- Source: saveProgress — write the current page URL to .lastdone only when
it starts with the Google Photos origin, otherwise keep the old value.
Returns the resulting stored value and whether the write was performed. -/
def saveProgress (lastdone currentUrl : String) : String × Bool :=
  if List.isPrefixOf googlePhotosOrigin.data currentUrl.data then (currentUrl, true)
  else (lastdone, false)

/-- Source: the per-item checkpoint update — both the first-photo site and the
main-loop site run saveProgress only when the result is not archived
(if (result !== 'archived') await saveProgress(page)). -/
def checkpointAfterItem (result : Outcome) (lastdone currentUrl : String) : String × Bool :=
  if result ≠ Outcome.archived then saveProgress lastdone currentUrl
  else (lastdone, false)

/-! ## Item Processor: waitForPageLoad, showDrawer, archiveElement, archivePhoto

The browser-facing probes are represented by explicit inputs:
  * domLoaded — whether waitForLoadState finished within its 10s timeout;
  * drawerProbe — the drawer-visibility evaluation, none when the evaluation
    threw (showDrawer's catch branch), some v when it returned visibility v;
  * raceTimeout — whether the Promise.race in archiveElement rejected
    (its 5s timer won or the evaluation threw);
  * infoBoxes — the DOM state read by the album evaluation: each .WUbige
    info box with its visibility and the trimmed texts of its .wiOkb boxes;
  * unexpectedExn — an exception reaching archivePhoto's own catch.
-/

/-- One .WUbige info box as seen by the album evaluation: whether the style
filter keeps it, and the trimmed textContent of each .wiOkb descendant. -/
structure InfoBox where
  visible : Bool
  albumTexts : List String
  deriving DecidableEq, Repr, Inhabited

/-- Result of the page.evaluate closure in archiveElement. -/
inductive EvalResult
  | err (count : Nat)
  | albums (has : Bool)
  deriving DecidableEq, Repr

/-- Source: the page.evaluate closure in archiveElement — filter the info
boxes down to the visible ones; exactly one must remain, otherwise an error
object with the count is returned; the single box has albums iff some
.wiOkb text equals the literal Alben. -/
def albumEvaluate (infoBoxes : List InfoBox) : EvalResult :=
  let visibleBoxes := infoBoxes.filter (fun box => box.visible)
  if visibleBoxes.length ≠ 1 then
    EvalResult.err visibleBoxes.length
  else
    EvalResult.albums ((visibleBoxes.headD default).albumTexts.any (fun t => t == "Alben"))

/-- Source: waitForPageLoad — true iff the load state arrived in time
(the catch branch returns false). -/
def waitForPageLoad (domLoaded : Bool) : Bool := domLoaded

/-- Source: showDrawer — returns true whether or not the drawer was already
visible (it presses KeyI when it was not); returns false only when the
visibility evaluation threw. -/
def showDrawer (drawerProbe : Option Bool) : Bool := drawerProbe.isSome

/-- Source: archiveElement — false on a race timeout or exception, false on
an ambiguous visible-box count, false when albums were found, true exactly
when the Shift+A archive chord was issued. -/
def archiveElement (raceTimeout : Bool) (infoBoxes : List InfoBox) : Bool :=
  if raceTimeout then false
  else
    match albumEvaluate infoBoxes with
    | EvalResult.err _ => false
    | EvalResult.albums true => false
    | EvalResult.albums false => true

/-- Source: archivePhoto — timeout when the page load or the drawer step
fails (or an unexpected exception escapes), otherwise archived or skipped
according to archiveElement. -/
def archivePhoto (unexpectedExn domLoaded : Bool) (drawerProbe : Option Bool)
    (raceTimeout : Bool) (infoBoxes : List InfoBox) : Outcome :=
  if unexpectedExn then Outcome.timeout
  else if !(waitForPageLoad domLoaded) then Outcome.timeout
  else if !(showDrawer drawerProbe) then Outcome.timeout
  else if archiveElement raceTimeout infoBoxes then Outcome.archived
  else Outcome.skipped

/-! ## Navigation Controller

Source: the navigation section of the main loop.  The non-archived branch
makes one advance attempt and maintains consecutiveRepeats against the
processedUrls set; the archived branch retries up to 5 times with a 3s
timeout per attempt and presses ArrowLeft when navigationAttempts >= 5.
-/

/-- Source: the non-archived navigation branch after a successful
waitForURL — check the cleaned new URL against processedUrls; on a repeat
increment consecutiveRepeats and, at two or more, press ArrowLeft once and
reset; on a new URL reset.  Returns the new counter value and the number of
ArrowLeft presses issued. -/
def nonArchivedAdvance (processedUrls : List String) (consecutiveRepeats : Nat)
    (newUrl : String) : Nat × Nat :=
  let newCleanUrl := clean newUrl
  if processedUrls.contains newCleanUrl then
    let repeats := consecutiveRepeats + 1
    if repeats ≥ 2 then (0, 1) else (repeats, 0)
  else (0, 0)

/-- One attempt of the post-archive navigation loop as seen from the code:
either the 3s waitForURL threw (navTimeout) or the page landed on a URL,
together with the isOnHomePage observation there. -/
inductive AttemptResult
  | navTimeout
  | landed (url : String) (onHomePage : Bool)
  deriving DecidableEq, Repr

/-- Source: the while (navigationAttempts < 5) loop of the archived branch,
written with an explicit remaining-iterations argument (remaining is kept
equal to 5 - navigationAttempts, so the base cases coincide with the loop
guard).  Returns the final navigationAttempts value, whether the loop broke
because an unprocessed URL was reached, and whether it broke because the
page landed on the home page. -/
def archivedNavGo (processedUrls : List String) (results : Nat → AttemptResult) :
    Nat → Nat → Nat × Bool × Bool
  | navigationAttempts, 0 => (navigationAttempts, false, false)
  | navigationAttempts, remaining + 1 =>
    let attempts := navigationAttempts + 1
    match results attempts with
    | AttemptResult.navTimeout => archivedNavGo processedUrls results attempts remaining
    | AttemptResult.landed url onHomePage =>
      if onHomePage then (attempts, false, true)
      else if processedUrls.contains (clean url) then
        archivedNavGo processedUrls results attempts remaining
      else (attempts, true, false)

/-- Source: the whole archived navigation branch — run the retry loop from
navigationAttempts = 0 and then press ArrowLeft iff the final
navigationAttempts value is at least 5 (the if (navigationAttempts >= 5)
check).  The components are (attempts, foundNew, hitHome, keyboardFallback). -/
def archivedNavigation (processedUrls : List String) (results : Nat → AttemptResult) :
    Nat × Bool × Bool × Bool :=
  match archivedNavGo processedUrls results 0 5 with
  | (attempts, foundNew, hitHome) => (attempts, foundNew, hitHome, decide (5 ≤ attempts))

/-! ## Home-page recovery and the main loop skeleton -/

/-- What the main loop does next after its home-page check. -/
inductive LoopAction
  | exitLoop
  | continueIter
  | proceed
  deriving DecidableEq, Repr

/-- Source: returnToLastPosition — page.goto(clean(lastDone)), then succeed
iff the page is not on the home page afterwards.  Returns the success flag
and the list of goto targets performed. -/
def returnToLastPosition (lastDone : String) (landsOnHomePage : Bool) : Bool × List String :=
  (!landsOnHomePage, [clean lastDone])

/-- Source: the home-page check at the top of the main loop — when
isOnHomePage holds, run returnToLastPosition once; break out of the loop
when it fails, continue with the next iteration when it succeeds; when not
on the home page fall through to the rest of the iteration.  Returns the
action and the recovery navigations performed. -/
def homeRedirectStep (onHomePage : Bool) (lastDone : String)
    (recoveryLandsOnHomePage : Bool) : LoopAction × List String :=
  if onHomePage then
    match returnToLastPosition lastDone recoveryLandsOnHomePage with
    | (recovered, navs) =>
      (if recovered then LoopAction.continueIter else LoopAction.exitLoop, navs)
  else (LoopAction.proceed, [])

/-- How one iteration of the while (true) loop ends: it runs to the bottom
and loops again, it breaks (boundary reached or unrecoverable home
redirect), or an exception escapes the iteration body. -/
inductive IterResult
  | continueLoop
  | breakLoop
  | throwExn
  deriving DecidableEq, Repr

/-- Source: the main function tail — await browser.close() stands directly
after the while loop, with no try/finally around the loop.  For a run whose
iterations end as listed, the result tells whether the close executed:
some true after a break, some false when an exception escapes the loop (the
async function rejects before reaching the close), none when the list does
not settle the run. -/
def closesBrowser : List IterResult → Option Bool
  | [] => none
  | IterResult.continueLoop :: rest => closesBrowser rest
  | IterResult.breakLoop :: _ => some true
  | IterResult.throwExn :: _ => some false

/-- The environment of one main-loop iteration: the page URL read at the
top, the isOnHomePage observation, and what the recovery navigation would
find if it runs. -/
structure IterEnv where
  url : String
  onHomePage : Bool
  recoveryLandsOnHomePage : Bool
  deriving DecidableEq, Repr

/-- Source: the main loop, restricted to the checks that decide whether
archivePhoto runs — home-page recovery first (continue or break, no
processing), then the boundary comparison clean(currentUrl) ===
clean(latestPhoto) (break before processing), and otherwise the iteration
processes the current URL and advances.  Returns the URLs passed to
archivePhoto inside the loop and whether the loop ended at the boundary. -/
def mainLoopProcessed (latestPhoto : String) : List IterEnv → List String × Bool
  | [] => ([], false)
  | e :: rest =>
    if e.onHomePage then
      if e.recoveryLandsOnHomePage then ([], false)
      else mainLoopProcessed latestPhoto rest
    else if clean e.url = clean latestPhoto then ([], true)
    else
      (e.url :: (mainLoopProcessed latestPhoto rest).1, (mainLoopProcessed latestPhoto rest).2)

/-- Source: the first (pre-loop) archivePhoto call happens unconditionally
on the page opened from the start link, before any boundary comparison; the
remaining calls come from the loop. -/
def mainProcessedItems (initialUrl latestPhoto : String) (envs : List IterEnv) : List String :=
  initialUrl :: (mainLoopProcessed latestPhoto envs).1

/-! ## Helper lemmas -/

theorem mainLoopProcessed_mem {latestPhoto url : String} {envs : List IterEnv}
    (h : url ∈ (mainLoopProcessed latestPhoto envs).1) :
    clean url ≠ clean latestPhoto := by
  induction envs with
  | nil => simp [mainLoopProcessed] at h
  | cons e rest ih =>
    simp only [mainLoopProcessed] at h
    by_cases hh : e.onHomePage = true
    · rw [if_pos hh] at h
      by_cases hr : e.recoveryLandsOnHomePage = true
      · rw [if_pos hr] at h; simp at h
      · rw [if_neg hr] at h; exact ih h
    · rw [if_neg hh] at h
      by_cases hb : clean e.url = clean latestPhoto
      · rw [if_pos hb] at h; simp at h
      · rw [if_neg hb] at h
        simp only [List.mem_cons] at h
        rcases h with rfl | h
        · exact hb
        · exact ih h

/-! ## Claim theorems -/

/-- C1: for every processed item whose outcome is archived, the checkpoint
write is not invoked, so the previously stored .lastdone locator is
preserved unchanged by that iteration. -/
theorem archived_preserves_checkpoint (lastdone currentUrl : String) :
    checkpointAfterItem Outcome.archived lastdone currentUrl = (lastdone, false) := by
  simp [checkpointAfterItem]

/-- C2 counterexample: a skipped item whose page URL still carries a /u/0/
account-index segment has its raw URL written to the checkpoint, so the
stored value differs from the normalized locator of the item, refuting the
claim that the stored checkpoint equals the normalized locator. -/
theorem skipped_checkpoint_not_normalized :
    (checkpointAfterItem Outcome.skipped "https://photos.google.com/photo/PREV"
        "https://photos.google.com/u/0/photo/CURR").2 = true ∧
      (checkpointAfterItem Outcome.skipped "https://photos.google.com/photo/PREV"
        "https://photos.google.com/u/0/photo/CURR").1 ≠
        clean "https://photos.google.com/u/0/photo/CURR" := by
  decide

/-- C2 amended: after processing an item with outcome skipped or timeout
whose page URL starts with the Google Photos origin, the stored checkpoint
equals the raw page URL of that item; the account-index segment is stripped
only when the checkpoint is read back, not when it is written. -/
theorem nonarchived_checkpoint_raw_url (result : Outcome) (lastdone currentUrl : String)
    (hres : result ≠ Outcome.archived)
    (hurl : List.isPrefixOf googlePhotosOrigin.data currentUrl.data = true) :
    checkpointAfterItem result lastdone currentUrl = (currentUrl, true) := by
  simp [checkpointAfterItem, saveProgress, hres, hurl]

/-- C2 amended, witness at a concrete timeout item. -/
theorem nonarchived_checkpoint_raw_url_witness :
    checkpointAfterItem Outcome.timeout "prev" "https://photos.google.com/photo/A" =
      ("https://photos.google.com/photo/A", true) :=
  nonarchived_checkpoint_raw_url Outcome.timeout "prev" "https://photos.google.com/photo/A"
    (by decide) (by decide)

/-- C3 counterexample: when the album-membership evaluation times out
(archiveElement's Promise.race rejects) on a page that loaded fine and
whose drawer probe succeeded, archivePhoto returns skipped, not the
timeout outcome the claim requires for that failure. -/
theorem album_check_timeout_yields_skipped :
    archivePhoto false true (some true) true [] = Outcome.skipped := by
  decide

/-- C3 amended: an unexpected exception, a page-load timeout, or a drawer
evaluation exception each yield the timeout outcome; but a timeout or
exception in the album-membership check yields skipped — it never yields
archived, yet it does not degrade to timeout. -/
theorem archivePhoto_failure_outcomes (domLoaded raceTimeout drawerVisible : Bool)
    (drawerProbe : Option Bool) (infoBoxes : List InfoBox) :
    archivePhoto true domLoaded drawerProbe raceTimeout infoBoxes = Outcome.timeout ∧
    archivePhoto false false drawerProbe raceTimeout infoBoxes = Outcome.timeout ∧
    archivePhoto false domLoaded none raceTimeout infoBoxes = Outcome.timeout ∧
    archivePhoto false domLoaded drawerProbe true infoBoxes ≠ Outcome.archived ∧
    archivePhoto false true (some drawerVisible) true infoBoxes = Outcome.skipped := by
  cases domLoaded <;> cases drawerProbe <;>
    simp [archivePhoto, waitForPageLoad, showDrawer, archiveElement]

/-- C4 counterexample: clean is not idempotent — on a locator holding two
overlapping account-index segments, stripping the first match exposes a
second one, so a second application strips again. -/
theorem clean_not_idempotent :
    clean (clean "/u/1/u/2/x") ≠ clean "/u/1/u/2/x" := by
  decide

/-- C4 amended: clean strips exactly the first occurrence of the
/u/(digits)/ pattern — it is the identity precisely on locators without an
occurrence — and it is idempotent on every locator whose cleaned form has
no further occurrence, though not on all locators. -/
theorem clean_strips_first_match (s : String) :
    (clean s = s ↔ hasUMatch s.data = false) ∧
    (hasUMatch (clean s).data = false → clean (clean s) = clean s) := by
  constructor
  · constructor
    · intro h
      by_contra hm
      rw [Bool.not_eq_false] at hm
      have hlt := replaceFirstU_length_lt (l := s.data) hm
      have hdata : (clean s).data = s.data := congrArg String.data h
      simp only [clean] at hdata
      rw [hdata] at hlt
      omega
    · intro h
      apply String.ext
      simp only [clean]
      exact replaceFirstU_of_no_match h
  · intro h
    apply String.ext
    simp only [clean]
    exact replaceFirstU_of_no_match h

/-- C4 amended, witness at a concrete locator with one account-index
segment. -/
theorem clean_strips_first_match_witness :
    clean (clean "a/u/7/b") = clean "a/u/7/b" :=
  (clean_strips_first_match "a/u/7/b").2 (by decide)

/-- C5: on the non-archived advance path, landing on an already visited
locator increments the repeat counter; when the incremented counter reaches
two the controller issues exactly one keyboard fallback press and resets
the counter to zero; landing on an unvisited locator resets the counter to
zero with no press. -/
theorem repeat_counter_behavior (processedUrls : List String) (consecutiveRepeats : Nat)
    (newUrl : String) :
    (processedUrls.contains (clean newUrl) = true →
      (consecutiveRepeats + 1 ≥ 2 →
        nonArchivedAdvance processedUrls consecutiveRepeats newUrl = (0, 1)) ∧
      (consecutiveRepeats + 1 < 2 →
        nonArchivedAdvance processedUrls consecutiveRepeats newUrl = (consecutiveRepeats + 1, 0))) ∧
    (processedUrls.contains (clean newUrl) = false →
      nonArchivedAdvance processedUrls consecutiveRepeats newUrl = (0, 0)) := by
  simp only [nonArchivedAdvance]
  constructor
  · intro hc
    rw [if_pos hc]
    constructor
    · intro h2
      rw [if_pos h2]
    · intro h2
      rw [if_neg (by omega : ¬ consecutiveRepeats + 1 ≥ 2)]
  · intro hc
    rw [if_neg (by rw [hc]; simp : ¬ processedUrls.contains (clean newUrl) = true)]

/-- C5, witness: one prior repeat plus a second repeated landing triggers
the single keyboard press and the reset. -/
theorem repeat_counter_behavior_witness :
    nonArchivedAdvance ["https://photos.google.com/photo/A"] 1
      "https://photos.google.com/photo/A" = (0, 1) :=
  ((repeat_counter_behavior ["https://photos.google.com/photo/A"] 1
      "https://photos.google.com/photo/A").1 (by decide)).1 (by decide)

/-- C6: the attempt results of the failing input — the first four attempts
land on the already processed locator, the fifth lands on a fresh one; no
home-page redirects and no attempt timeouts. -/
def fifthAttemptSucceeds (n : Nat) : AttemptResult :=
  if n ≤ 4 then AttemptResult.landed "https://photos.google.com/photo/OLD" false
  else AttemptResult.landed "https://photos.google.com/photo/NEW" false

/-- C6: evaluating the post-archive navigation branch on the failing input
shows the divergence — the fifth attempt finds a new, non-home locator
(foundNew is true, so by the claim no fallback should fire), yet the final
navigationAttempts value is 5, so the if (navigationAttempts >= 5) check
still presses the keyboard fallback. -/
theorem archived_nav_fallback_despite_success :
    archivedNavigation ["https://photos.google.com/photo/OLD"] fifthAttemptSucceeds =
      (5, true, false, true) := by
  decide

/-- C7: when the album-membership evaluation sees zero or several visible
info regions, the archive chord is never issued and the outcome of a
successfully loaded item is skipped, never archived. -/
theorem ambiguous_info_boxes_skipped (drawerVisible : Bool) (infoBoxes : List InfoBox)
    (hcount : (infoBoxes.filter (fun box => box.visible)).length ≠ 1) :
    archiveElement false infoBoxes = false ∧
    archivePhoto false true (some drawerVisible) false infoBoxes = Outcome.skipped := by
  have he : albumEvaluate infoBoxes =
      EvalResult.err (infoBoxes.filter (fun box => box.visible)).length := by
    simp [albumEvaluate, hcount]
  constructor
  · simp [archiveElement, he]
  · simp [archivePhoto, waitForPageLoad, showDrawer, archiveElement, he]

/-- C7, witness: a page with no visible info region at all. -/
theorem ambiguous_info_boxes_skipped_witness :
    archiveElement false ([] : List InfoBox) = false ∧
    archivePhoto false true (some true) false [] = Outcome.skipped :=
  ambiguous_info_boxes_skipped true [] (by decide)

/-- C8: a home-page redirect detected at the top of the main loop triggers
exactly one recovery navigation to the cleaned checkpoint locator; when the
recovery also lands on the home page the loop exits gracefully, and when it
succeeds the loop continues with the next iteration. -/
theorem home_redirect_single_recovery (lastDone : String) (recoveryLandsOnHomePage : Bool) :
    (homeRedirectStep true lastDone recoveryLandsOnHomePage).2 = [clean lastDone] ∧
    (recoveryLandsOnHomePage = true →
      (homeRedirectStep true lastDone recoveryLandsOnHomePage).1 = LoopAction.exitLoop) ∧
    (recoveryLandsOnHomePage = false →
      (homeRedirectStep true lastDone recoveryLandsOnHomePage).1 = LoopAction.continueIter) := by
  cases recoveryLandsOnHomePage <;> simp [homeRedirectStep, returnToLastPosition]

/-- C8, witness: a failed recovery exits the loop. -/
theorem home_redirect_single_recovery_witness :
    (homeRedirectStep true "https://photos.google.com/photo/A" true).1 = LoopAction.exitLoop :=
  (home_redirect_single_recovery "https://photos.google.com/photo/A" true).2.1 rfl

/-- C9 counterexample: a run whose first iteration throws an exception
terminates without executing browser.close, refuting the claim that every
exit path releases the browser session. -/
theorem exception_skips_browser_close :
    closesBrowser [IterResult.throwExn] = some false := by
  decide

/-- C9 amended: the browser is closed on the two graceful exits (the loop
breaks at the boundary or after an unrecoverable home redirect), but a run
terminated by an exception escaping an iteration skips the close, since no
try/finally guards the main loop. -/
theorem break_closes_throw_skips_close (n : Nat) :
    closesBrowser (List.replicate n IterResult.continueLoop ++ [IterResult.breakLoop]) =
      some true ∧
    closesBrowser (List.replicate n IterResult.continueLoop ++ [IterResult.throwExn]) =
      some false := by
  induction n with
  | zero => exact ⟨rfl, rfl⟩
  | succ n ih => simpa [List.replicate_succ, closesBrowser] using ih

/-- C10: inside the main loop the Item Processor never runs on a locator
equal (after cleaning) to the Boundary Target; the starting item is
processed once before any boundary comparison, and when the start locator
equals the boundary the run processes exactly that one item and the loop
exits at once without advancing. -/
theorem processor_never_on_boundary (initialUrl latestPhoto : String)
    (envs : List IterEnv) (e : IterEnv) :
    (∀ url ∈ (mainLoopProcessed latestPhoto envs).1, clean url ≠ clean latestPhoto) ∧
    (e.onHomePage = false → e.url = initialUrl → clean initialUrl = clean latestPhoto →
      mainProcessedItems initialUrl latestPhoto (e :: envs) = [initialUrl] ∧
      (mainLoopProcessed latestPhoto (e :: envs)).2 = true) := by
  refine ⟨fun url h => mainLoopProcessed_mem h, fun hh hu hb => ?_⟩
  simp [mainProcessedItems, mainLoopProcessed, hh, hu, hb]

/-- C10, witness: a run starting at the boundary item. -/
theorem processor_never_on_boundary_witness :
    mainProcessedItems "https://photos.google.com/photo/B" "https://photos.google.com/photo/B"
        [⟨"https://photos.google.com/photo/B", false, false⟩] =
        ["https://photos.google.com/photo/B"] ∧
      (mainLoopProcessed "https://photos.google.com/photo/B"
        [⟨"https://photos.google.com/photo/B", false, false⟩]).2 = true :=
  (processor_never_on_boundary "https://photos.google.com/photo/B"
    "https://photos.google.com/photo/B" [] ⟨"https://photos.google.com/photo/B", false, false⟩).2
    rfl rfl rfl

end GPhotos
